import Mathlib

/-!
Verification development for the wallpaper and color-theme management script
(config/niri/scripts/wallpaper.py).

The script is embedded shallowly: every external capability (swaybg, wallust,
systemctl, makoctl, magick) is represented by a record of availabilities and
exit statuses, and each invocation of a capability is recorded as an event.
Persisted files (the current_wallpaper file, the cache files under the cache
directory, the automation pid file) are explicit fields of a state record.
The functions below follow the Python source line by line; concurrent threads
are serialised (they share no mutable state except distinct cache files), and
whether the join loop was reached is recorded as a boolean field of the result.
-/

namespace Wallpaper

/-- Availability and exit status of the external capabilities, as one
invocation of the script observes them: `wallust`, `magick`, `swaybg` model
`shutil.which`, `wallustOk` and `magickOk` model the exit status of the
corresponding `run_cmd`, and `fileExists` models `Path.exists` on the
filesystem. -/
structure Caps where
  wallust : Bool
  wallustOk : Bool
  magick : Bool
  magickOk : Bool
  swaybg : Bool
  fileExists : String → Bool

/-- Observable invocation of an external capability. -/
inductive Ev where
  | wallustRun
  | waybarRestart
  | makoReload
  | magickRun (effect : String)
  | swaybgKill
  | swaybgRun
  deriving DecidableEq, Repr

/-- Association-list lookup, first match wins (the most recent write). -/
def findVal (k : String) : List (String × String) → Option String
  | [] => none
  | (k₀, v) :: rest => if k₀ = k then some v else findVal k rest

/-- Writing a file: the newest binding shadows older ones. -/
def setVal (k v : String) (l : List (String × String)) : List (String × String) :=
  (k, v) :: l

/-- Characters after the last slash of the list, if any slash occurs. -/
def afterLastSlash : List Char → Option (List Char)
  | [] => none
  | c :: cs =>
    match afterLastSlash cs with
    | some s => some s
    | none => if c = '/' then some cs else none

/-- Final path component, as `pathlib.PurePath.name` on the
slash-separated file paths this program handles. -/
def fileName (p : String) : String :=
  match afterLastSlash p.data with
  | some s => String.mk s
  | none => p

/-- Model of `str.lower` for the ASCII file names this program handles. -/
def lowerStr (s : String) : String :=
  String.mk (s.data.map Char.toLower)

/-- Characters after the last dot of the list, if any dot occurs. -/
def afterLastDot : List Char → Option (List Char)
  | [] => none
  | c :: cs =>
    match afterLastDot cs with
    | some s => some s
    | none => if c = '.' then some cs else none

/-- Extension of the final path component, as `pathlib.PurePath.suffix`: the
last dot of the name onwards, empty when the name has no dot, when the only
dot is the leading character, or when the dot is the final character. -/
def pySuffix (p : String) : String :=
  match (fileName p).data with
  | [] => ""
  | _ :: rest =>
    match afterLastDot rest with
    | some s => if s.isEmpty then "" else String.mk ('.' :: s)
    | none => ""

/-- Base wallpaper directory, `HOME / "Pictures/wallpaper"` (wallpaper.py
line 33). -/
def wallpaperDir (home : String) : String :=
  home ++ "/Pictures/wallpaper"

/-- Function `get_current_wallpaper` (wallpaper.py lines 113 to 121): the
argument is the content of the current_wallpaper cache file, or `none` when
that file does not exist; the fallback is the fixed default path. -/
def get_current_wallpaper (home : String) (currentFile : Option String) : String :=
  match currentFile with
  | some text => text.trim
  | none => wallpaperDir home ++ "/anime/a_tree_trunk_with_a_branch.png"

/-- Function `update_themes` (wallpaper.py lines 144 to 168), returning the
list of external invocations it performs. When wallust is not on the path the
function returns before invoking anything; when the wallust run fails the
function returns before the waybar and mako reloads. -/
def update_themes (c : Caps) : List Ev :=
  if c.wallust = false then []
  else if c.wallustOk = false then [Ev.wallustRun]
  else [Ev.wallustRun, Ev.waybarRestart, Ev.makoReload]

/-- Persisted cache files. `perSource` holds the files
`generated/<effect>-<basename>.png` (keyed by that file name, value the
artifact content), and `generic` holds the files `<effect>-wallpaper.png`
(keyed by effect). Values are opaque content tags. -/
structure CacheSt where
  perSource : List (String × String)
  generic : List (String × String)
  deriving DecidableEq, Repr

/-- Cache key of `transform_wallpaper`: `<effect>-<basename>.png`
(wallpaper.py line 183). -/
def cacheKey (path effect : String) : String :=
  effect ++ "-" ++ fileName path ++ ".png"

/-- Content tag of the artifact the magick invocation would produce. -/
def artifact (path effect : String) : String :=
  "magick:" ++ effect ++ ":" ++ path

/-- Function `transform_wallpaper` (wallpaper.py lines 171 to 198). On a cache
hit the cached artifact is copied to the generic-latest file and nothing is
invoked. On a miss with magick absent nothing happens; otherwise magick is
invoked writing the generic-latest file and, on success only, the result is
copied into the per-source cache entry. On a failed run the per-source entry
is not written (the source does not inspect partial output, so the generic
file is modelled as unchanged on failure). -/
def transform_wallpaper (c : Caps) (st : CacheSt) (path effect : String) :
    CacheSt × List Ev :=
  match findVal (cacheKey path effect) st.perSource with
  | some art =>
    ({ st with generic := setVal effect art st.generic }, [])
  | none =>
    if c.magick = false then (st, [])
    else if c.magickOk then
      ({ perSource := setVal (cacheKey path effect) (artifact path effect) st.perSource,
         generic := setVal effect (artifact path effect) st.generic },
       [Ev.magickRun effect])
    else (st, [Ev.magickRun effect])

/-- Result of `set_wallpaper`: the boolean return value, the content of the
current_wallpaper file after the call, the cache state after the call, the
external invocations performed, the number of worker threads started, and
whether the join loop over those threads was executed before returning. -/
structure SetRes where
  ok : Bool
  current : Option String
  cache : CacheSt
  events : List Ev
  started : Nat
  joined : Bool

/-- Function `set_wallpaper` (wallpaper.py lines 201 to 263). A missing file
fails before any thread is started. Otherwise the theme thread and the two
transform threads are started (their effects are serialised here; square and
blurred write distinct cache keys). `launch_swaybg` (lines 127 to 141) first
checks availability: when swaybg is absent it performs no invocation and
returns false, and `set_wallpaper` returns false at line 253 without writing
the current_wallpaper file and without reaching the join loop. On display
success the pkill and launch happen, the current_wallpaper file is written,
and the threads are joined. -/
def set_wallpaper (c : Caps) (current : Option String) (st : CacheSt)
    (path : String) : SetRes :=
  if c.fileExists path = false then
    { ok := false, current := current, cache := st, events := [],
      started := 0, joined := false }
  else
    let evTheme := update_themes c
    let rSq := transform_wallpaper c st path "square"
    let rBl := transform_wallpaper c rSq.1 path "blurred"
    let evs := evTheme ++ rSq.2 ++ rBl.2
    if c.swaybg = false then
      { ok := false, current := current, cache := rBl.1, events := evs,
        started := 3, joined := false }
    else
      { ok := true, current := some path, cache := rBl.1,
        events := evs ++ [Ev.swaybgKill, Ev.swaybgRun],
        started := 3, joined := true }

/-- Entry of the recursive directory walk `target_dir.rglob` in
`shuffle_wallpaper`: a path together with whether it is a regular file. -/
structure Entry where
  path : String
  isFile : Bool
  deriving DecidableEq, Repr

/-- Fixed image-extension set of `shuffle_wallpaper` (wallpaper.py
line 285). -/
def imageExts : List String :=
  [".jpg", ".jpeg", ".png"]

/-- Eligible images of `shuffle_wallpaper` (wallpaper.py lines 286 to 290):
the regular files of the walk whose lower-cased extension is in the fixed
image-extension set. -/
def eligibleFiles (tree : List Entry) : List Entry :=
  tree.filter (fun f => f.isFile && imageExts.contains (lowerStr (pySuffix f.path)))

/-- Selection portion of `shuffle_wallpaper` (wallpaper.py lines 266 to 296):
`dirExists` models the existence check on the resolved target directory,
`tree` its recursive walk, and `k` the randomness of `random.choice` (the
choice picks the image at index `k` modulo the number of eligible images).
The chosen image is then passed on to `set_wallpaper` (line 297). -/
def shuffle_select (dirExists : Bool) (tree : List Entry) (k : Nat) :
    Option Entry :=
  if dirExists = false then none
  else
    let images := eligibleFiles tree
    if images.isEmpty then none
    else images.get? (k % images.length)

/-- Decimal numeral of a natural number, most significant digit first: the
text `str(pid)` writes into the automation pid file (wallpaper.py
line 337). -/
def natPrint (n : Nat) : String :=
  if n = 0 then "0" else String.mk ((Nat.digits 10 n).reverse.map Nat.digitChar)

/-- Leading and trailing whitespace removal on a character list, modelling
`str.strip` for the ASCII whitespace relevant here. -/
def stripChars (l : List Char) : List Char :=
  (((l.dropWhile Char.isWhitespace).reverse.dropWhile Char.isWhitespace).reverse)

/-- Value of a nonempty all-digit character list, most significant first. -/
def digitsVal (l : List Char) : Nat :=
  l.foldl (fun a c => a * 10 + (c.toNat - 48)) 0

/-- Model of `int(text.strip())` (wallpaper.py line 313) on the nonnegative
decimal numerals this program writes: strips whitespace, then succeeds
exactly on a nonempty string of decimal digits; any other text raises
ValueError, modelled as `none`. (Python additionally accepts signs and
underscore separators, which this program never writes.) -/
def pidParse (s : String) : Option Nat :=
  let cs := stripChars s.data
  if cs.isEmpty || !cs.all Char.isDigit then none
  else some (digitsVal cs)

/-- State of the automation lifecycle: `record` is the content of the
automation pid file (`none` when the file does not exist), `alive` the
process identifiers of the live automation-loop processes, and `nextPid` the
identifier the operating system gives the next spawned process (fresh:
strictly above every live pid in well-formed states). -/
structure AutoSt where
  record : Option String
  alive : List Nat
  nextPid : Nat
  deriving DecidableEq, Repr

/-- Termination phase of `manage_automation` (wallpaper.py lines 311 to 320):
when the pid file exists, its content is parsed and the named process is
killed; a ValueError (unparseable content) or ProcessLookupError (no live
process with that pid) is caught and only logged; in every case the pid file
is then unlinked. Delivery of SIGTERM to a live process is modelled as its
immediate termination. -/
def clearOld (st : AutoSt) : AutoSt :=
  match st.record with
  | none => st
  | some s =>
    match pidParse s with
    | some pid =>
      if pid ∈ st.alive then
        { st with record := none, alive := st.alive.erase pid }
      else { st with record := none }
    | none => { st with record := none }

/-- Function `manage_automation` (wallpaper.py lines 303 to 343): terminate
and clear any previous automation first; then, when the interval is positive,
spawn the detached loop process and persist its pid as the new record. -/
def manage_automation (interval : Int) (st : AutoSt) : AutoSt :=
  let st₁ := clearOld st
  if 0 < interval then
    { record := some (natPrint st₁.nextPid),
      alive := st₁.nextPid :: st₁.alive,
      nextPid := st₁.nextPid + 1 }
  else st₁

/-- Well-formedness of the automation state: live loop pids are distinct,
every live loop pid is named by the persisted record, and the next pid the
operating system hands out is fresh. -/
def AutoWf (st : AutoSt) : Prop :=
  st.alive.Nodup ∧
  (∀ p ∈ st.alive, ∃ s, st.record = some s ∧ pidParse s = some p) ∧
  (∀ p ∈ st.alive, p < st.nextPid)

/-- Observable step of the automation loop process. -/
inductive LoopStep where
  | iter (ok : Bool)
  | sleep
  | notifyStop
  | clearPid
  | exitOne
  deriving DecidableEq, Repr

/-- Function `automation_loop` (wallpaper.py lines 346 to 356) as the trace
of observable steps it performs, driven by the outcomes of the successive
`shuffle_wallpaper` calls (the loop itself is unbounded; the argument list is
the finite observed sequence of outcomes, and an exhausted list leaves the
loop still running). A successful iteration is followed by the sleep; a
failed one by the notification, the removal of the pid file, and
`sys.exit(1)`. -/
def automation_loop : List Bool → List LoopStep
  | [] => []
  | ok :: rest =>
    if ok then LoopStep.iter true :: LoopStep.sleep :: automation_loop rest
    else [LoopStep.iter false, LoopStep.notifyStop, LoopStep.clearPid,
          LoopStep.exitOne]

/-- Empty cache state. -/
def emptyCache : CacheSt :=
  ⟨[], []⟩

/-- Every capability present and succeeding, every file present. -/
def capsFull : Caps :=
  ⟨true, true, true, true, true, fun _ => true⟩

/-- Every capability present, the requested file missing. -/
def capsNoFile : Caps :=
  ⟨true, true, true, true, true, fun _ => false⟩

/-- Display capability (swaybg) missing, everything else available. -/
def capsNoSwaybg : Caps :=
  ⟨true, true, true, true, false, fun _ => true⟩

/-- The magick run fails, everything else available and succeeding. -/
def capsMagickFails : Caps :=
  ⟨true, true, true, false, true, fun _ => true⟩

/-- Palette capability (wallust) missing, everything else available. -/
def capsNoWallust : Caps :=
  ⟨false, true, true, true, true, fun _ => true⟩

/-- Directory walk holding exactly the regular files a.png and b.txt. -/
def demoTree : List Entry :=
  [⟨"a.png", true⟩, ⟨"b.txt", true⟩]

/-- Automation state with no record and no live loop. -/
def idleAuto : AutoSt :=
  ⟨none, [], 0⟩

/-- Automation state whose record holds text on which int raises
ValueError. -/
def staleAuto : AutoSt :=
  ⟨some "stale", [], 3⟩

/-- C10: when no current_wallpaper record exists, reading the current
wallpaper does not fail: it returns the fixed hard-coded default path, which
lies under the base wallpaper directory. -/
theorem C10_default_current_wallpaper (home : String) :
    get_current_wallpaper home none =
      wallpaperDir home ++ "/anime/a_tree_trunk_with_a_branch.png" ∧
    ∃ rest, get_current_wallpaper home none = wallpaperDir home ++ rest :=
  ⟨rfl, "/anime/a_tree_trunk_with_a_branch.png", rfl⟩

/-- C3: on a path that does not refer to an existing file, set_wallpaper
returns failure, performs no external invocation, and leaves the
current_wallpaper state, the cache files, and the thread bookkeeping
untouched. -/
theorem C3_missing_file_no_effects (c : Caps) (current : Option String)
    (st : CacheSt) (path : String) (h : c.fileExists path = false) :
    set_wallpaper c current st path =
      { ok := false, current := current, cache := st, events := [],
        started := 0, joined := false } := by
  simp [set_wallpaper, h]

/-- Witness for C3 at a concrete missing path. -/
theorem C3_missing_file_no_effects_witness :
    capsNoFile.fileExists "/does/not/exist.png" = false ∧
    set_wallpaper capsNoFile (some "/old.png") emptyCache "/does/not/exist.png" =
      { ok := false, current := some "/old.png", cache := emptyCache,
        events := [], started := 0, joined := false } :=
  ⟨rfl, C3_missing_file_no_effects capsNoFile (some "/old.png") emptyCache
    "/does/not/exist.png" rfl⟩

/-- C1: when the display capability is missing, so that the display-apply
step of set_wallpaper fails, set_wallpaper returns failure and the persisted
current_wallpaper state is unchanged from its value before the call. -/
theorem C1_display_fail_preserves_state (c : Caps) (current : Option String)
    (st : CacheSt) (path : String) (h : c.swaybg = false) :
    (set_wallpaper c current st path).ok = false ∧
    (set_wallpaper c current st path).current = current := by
  unfold set_wallpaper
  by_cases hf : c.fileExists path = false <;> simp [hf, h]

/-- Witness for C1 at a concrete state with swaybg missing. -/
theorem C1_display_fail_preserves_state_witness :
    (set_wallpaper capsNoSwaybg (some "/old.png") emptyCache "/w/a.png").ok
      = false ∧
    (set_wallpaper capsNoSwaybg (some "/old.png") emptyCache "/w/a.png").current
      = some "/old.png" :=
  C1_display_fail_preserves_state capsNoSwaybg (some "/old.png") emptyCache
    "/w/a.png" rfl

/-- C6: when the palette capability is unavailable or its invocation fails,
update_themes aborts without invoking any downstream reload capability; the
reload capabilities are invoked only when (and after) the palette generation
succeeded. -/
theorem C6_reloads_gated_on_palette (c : Caps) :
    ((c.wallust = false ∨ c.wallustOk = false) →
      Ev.waybarRestart ∉ update_themes c ∧ Ev.makoReload ∉ update_themes c) ∧
    (∀ e, (e = Ev.waybarRestart ∨ e = Ev.makoReload) → e ∈ update_themes c →
      c.wallust = true ∧ c.wallustOk = true ∧
      update_themes c = [Ev.wallustRun, Ev.waybarRestart, Ev.makoReload]) := by
  rcases c with ⟨w, wo, m, mo, sb, fe⟩
  cases w <;> cases wo <;> simp [update_themes]

/-- Witness for C6 with wallust missing. -/
theorem C6_reloads_gated_on_palette_witness :
    Ev.waybarRestart ∉ update_themes capsNoWallust ∧
    Ev.makoReload ∉ update_themes capsNoWallust :=
  (C6_reloads_gated_on_palette capsNoWallust).1 (Or.inl rfl)

/-- C5, counterexample: with an existing file and the display capability
missing, set_wallpaper starts its three worker threads, returns failure, and
does not execute the join loop — so on this return path the started tasks are
not joined before returning, contrary to the claim. -/
theorem C5_fail_path_skips_join_cex :
    (set_wallpaper capsNoSwaybg (some "/old.png") emptyCache "/w/a.png").started
      = 3 ∧
    (set_wallpaper capsNoSwaybg (some "/old.png") emptyCache "/w/a.png").joined
      = false ∧
    (set_wallpaper capsNoSwaybg (some "/old.png") emptyCache "/w/a.png").ok
      = false :=
  ⟨rfl, rfl, rfl⟩

/-- C5, amended: the started tasks are joined before returning exactly on the
success path (an existing file whose display application succeeds); when the
display step fails, set_wallpaper returns failure immediately without joining
them. The boolean result never depends on the outcomes of the concurrent
tasks: it equals the conjunction of the file-existence precondition and the
display-apply success. -/
theorem C5_join_and_result (c : Caps) (current : Option String) (st : CacheSt)
    (path : String) :
    (set_wallpaper c current st path).ok = (c.fileExists path && c.swaybg) ∧
    (set_wallpaper c current st path).joined = (c.fileExists path && c.swaybg) := by
  unfold set_wallpaper
  by_cases hf : c.fileExists path = false
  · simp [hf]
  · replace hf : c.fileExists path = true := by
      revert hf; cases c.fileExists path <;> simp
    by_cases hs : c.swaybg = false
    · simp [hf, hs]
    · replace hs : c.swaybg = true := by revert hs; cases c.swaybg <;> simp
      simp [hf, hs]

/-- C7: whenever an iteration of the automation loop fails after n successful
iterations, the trace ends with the notification, the removal of the pid
record, and the process exit; no step of the trace depends on the outcomes
after the failure, so the loop never reaches another iteration. -/
theorem C7_loop_stops_on_failure (n : Nat) (rest : List Bool) :
    automation_loop (List.replicate n true ++ false :: rest) =
      (List.replicate n [LoopStep.iter true, LoopStep.sleep]).flatten ++
        [LoopStep.iter false, LoopStep.notifyStop, LoopStep.clearPid,
         LoopStep.exitOne] := by
  induction n with
  | zero => simp [automation_loop]
  | succ k ih => simp [List.replicate_succ, automation_loop, ih]

/-- Lookup immediately after a write of the same key returns the written
value. -/
theorem findVal_setVal_same (k v : String) (l : List (String × String)) :
    findVal k (setVal k v l) = some v := by
  simp [findVal, setVal]

/-- C9: the selector enumerates exactly the regular files of the recursive
walk whose lower-cased extension is in the fixed image-extension set; it
fails when that collection is empty and otherwise picks one of its members;
on a directory holding only a.png and b.txt it selects a.png for every draw
of the randomness. -/
theorem C9_selector_eligible_files :
    (∀ tree e, e ∈ eligibleFiles tree ↔
        e ∈ tree ∧ e.isFile = true ∧ lowerStr (pySuffix e.path) ∈ imageExts) ∧
    (∀ tree k, eligibleFiles tree = [] → shuffle_select true tree k = none) ∧
    (∀ tree k e, shuffle_select true tree k = some e → e ∈ eligibleFiles tree) ∧
    (∀ k, shuffle_select true demoTree k = some ⟨"a.png", true⟩) := by
  refine ⟨?_, ?_, ?_, ?_⟩
  · intro tree e
    simp [eligibleFiles, List.mem_filter]
  · intro tree k h
    simp [shuffle_select, h]
  · intro tree k e h
    simp only [shuffle_select, if_neg] at h
    by_cases hemp : (eligibleFiles tree).isEmpty
    · simp [hemp] at h
    · simp [hemp] at h
      exact List.getElem?_mem h
  · intro k
    have he : eligibleFiles demoTree = [⟨"a.png", true⟩] := rfl
    simp [shuffle_select, he, Nat.mod_one]

/-- Witness for C9 at a concrete draw of the randomness. -/
theorem C9_selector_eligible_files_witness :
    shuffle_select true demoTree 7 = some ⟨"a.png", true⟩ :=
  C9_selector_eligible_files.2.2.2 7

/-- C4, counterexample: with the magick run failing, two successive calls of
transform_wallpaper for the same (effect, image) pair invoke the external
transformation twice, not at most once — nothing was cached by the failed
first call, so the second call retries. -/
theorem C4_retry_after_failure_cex :
    ((transform_wallpaper capsMagickFails emptyCache "/w/a.png" "blurred").2 ++
      (transform_wallpaper capsMagickFails
        (transform_wallpaper capsMagickFails emptyCache "/w/a.png" "blurred").1
        "/w/a.png" "blurred").2).length = 2 :=
  rfl

/-- C4, amended: when the transformation capability is present and its
invocation succeeds, two successive calls for the same (effect, image) pair
invoke it at most once — the first call stores both the per-source cache
entry and the generic-latest file with the same artifact, and the second call
is a pure cache hit that invokes nothing, leaves the per-source cache
untouched, and only copies the cached artifact to the generic-latest
location. When the invocation fails, no per-source cache entry is written
(and the next call therefore retries). -/
theorem C4_cache_idempotence (c : Caps) (st : CacheSt) (path effect : String) :
    (c.magick = true → c.magickOk = true →
      ((transform_wallpaper c st path effect).2 ++
        (transform_wallpaper c (transform_wallpaper c st path effect).1
          path effect).2).length ≤ 1 ∧
      (transform_wallpaper c (transform_wallpaper c st path effect).1
        path effect).2 = [] ∧
      (transform_wallpaper c (transform_wallpaper c st path effect).1
        path effect).1.perSource
        = (transform_wallpaper c st path effect).1.perSource ∧
      ∃ art,
        findVal (cacheKey path effect)
          (transform_wallpaper c st path effect).1.perSource = some art ∧
        findVal effect (transform_wallpaper c st path effect).1.generic
          = some art ∧
        findVal effect
          (transform_wallpaper c (transform_wallpaper c st path effect).1
            path effect).1.generic = some art) ∧
    (c.magickOk = false →
      findVal (cacheKey path effect) st.perSource = none →
      findVal (cacheKey path effect)
        (transform_wallpaper c st path effect).1.perSource = none) := by
  constructor
  · intro hm hok
    cases hfind : findVal (cacheKey path effect) st.perSource with
    | some art =>
      simp [transform_wallpaper, hfind, findVal_setVal_same]
    | none =>
      simp [transform_wallpaper, hfind, hm, hok, findVal_setVal_same]
  · intro hok hfind
    by_cases hm : c.magick = false <;>
      simp [transform_wallpaper, hfind, hok, hm]

/-- Witness for C4: the success case at a fresh cache and the failure case,
both at concrete inputs. -/
theorem C4_cache_idempotence_witness :
    (((transform_wallpaper capsFull emptyCache "/w/a.png" "square").2 ++
      (transform_wallpaper capsFull
        (transform_wallpaper capsFull emptyCache "/w/a.png" "square").1
        "/w/a.png" "square").2).length ≤ 1) ∧
    findVal (cacheKey "/w/a.png" "square")
      (transform_wallpaper capsMagickFails emptyCache "/w/a.png"
        "square").1.perSource = none :=
  ⟨((C4_cache_idempotence capsFull emptyCache "/w/a.png" "square").1 rfl rfl).1,
   (C4_cache_idempotence capsMagickFails emptyCache "/w/a.png" "square").2
     rfl rfl⟩

/-- Digit characters are never whitespace. -/
theorem isDigit_not_whitespace (c : Char) (h : c.isDigit = true) :
    c.isWhitespace = false := by
  cases hw : c.isWhitespace with
  | false => rfl
  | true =>
    exfalso
    simp only [Char.isWhitespace, Bool.or_eq_true, decide_eq_true_eq] at hw
    rcases hw with ((h1 | h1) | h1) | h1 <;> subst h1 <;>
      exact absurd h (by decide)

/-- Character of a digit below ten is a decimal digit character. -/
theorem digitChar_isDigit (d : Nat) (h : d < 10) :
    (Nat.digitChar d).isDigit = true := by
  interval_cases d <;> decide

/-- Numeric value of the character of a digit below ten. -/
theorem digitChar_toNat_sub (d : Nat) (h : d < 10) :
    (Nat.digitChar d).toNat - 48 = d := by
  interval_cases d <;> decide

/-- Whitespace removal leaves an all-digit list untouched (head side). -/
theorem dropWhile_of_digits (l : List Char) (h : ∀ c ∈ l, c.isDigit = true) :
    l.dropWhile Char.isWhitespace = l := by
  cases l with
  | nil => rfl
  | cons c cs =>
    rw [List.dropWhile_cons,
      isDigit_not_whitespace c (h c (List.mem_cons_self c cs))]
    simp

/-- Whitespace stripping leaves a nonempty all-digit list untouched. -/
theorem stripChars_of_digits (l : List Char) (h : ∀ c ∈ l, c.isDigit = true) :
    stripChars l = l := by
  unfold stripChars
  rw [dropWhile_of_digits l h,
    dropWhile_of_digits l.reverse (fun c hc => h c (List.mem_reverse.mp hc)),
    List.reverse_reverse]

/-- Folding the numeric values of digit characters equals folding the
digits. -/
theorem foldl_digitChar (l : List Nat) (a : Nat) (h : ∀ d ∈ l, d < 10) :
    l.foldl (fun a d => a * 10 + ((Nat.digitChar d).toNat - 48)) a =
      l.foldl (fun a d => a * 10 + d) a := by
  induction l generalizing a with
  | nil => rfl
  | cons d t ih =>
    simp only [List.foldl_cons]
    rw [digitChar_toNat_sub d (h d (List.mem_cons_self d t))]
    exact ih _ (fun x hx => h x (List.mem_cons_of_mem d hx))

/-- Folding base-ten accumulation over the reversed little-endian digit list
recovers the number. -/
theorem foldl_base_ten (l : List Nat) (a : Nat) :
    l.reverse.foldl (fun a d => a * 10 + d) a =
      a * 10 ^ l.length + Nat.ofDigits 10 l := by
  induction l generalizing a with
  | nil => simp
  | cons d t ih =>
    simp only [List.reverse_cons, List.foldl_append, List.foldl_cons,
      List.foldl_nil, List.length_cons]
    rw [ih, Nat.ofDigits_cons, pow_succ]
    ring

/-- Parsing the decimal numeral of a pid recovers the pid: the automation pid
file written by a start is read back as the same process identifier. -/
theorem pidParse_natPrint (n : Nat) : pidParse (natPrint n) = some n := by
  by_cases h0 : n = 0
  · subst h0; decide
  · have hd : ∀ d ∈ Nat.digits 10 n, d < 10 := fun d hdm =>
      Nat.digits_lt_base (by norm_num) hdm
    have hchars : ∀ c ∈ (Nat.digits 10 n).reverse.map Nat.digitChar,
        c.isDigit = true := by
      intro c hc
      rcases List.mem_map.mp hc with ⟨d, hdm, rfl⟩
      exact digitChar_isDigit d (hd d (List.mem_reverse.mp hdm))
    have hne : ((Nat.digits 10 n).reverse.map Nat.digitChar).isEmpty = false := by
      simp [Nat.digits_ne_nil_iff_ne_zero.mpr h0]
    rw [natPrint, if_neg h0]
    unfold pidParse
    rw [show (String.mk ((Nat.digits 10 n).reverse.map Nat.digitChar)).data
        = (Nat.digits 10 n).reverse.map Nat.digitChar from rfl]
    rw [stripChars_of_digits _ hchars]
    rw [if_neg (by
      simp only [Bool.or_eq_true, Bool.not_eq_true', not_or]
      simp
      exact ⟨Nat.digits_ne_nil_iff_ne_zero.mpr h0,
        fun x hx => digitChar_isDigit x (hd x hx)⟩)]
    unfold digitsVal
    rw [List.foldl_map,
      foldl_digitChar _ 0 (fun d hdm => hd d (List.mem_reverse.mp hdm)),
      foldl_base_ten]
    simp [Nat.ofDigits_digits]

/-- Under well-formedness the termination phase always reaches the state
with no record and no live loop. -/
theorem clearOld_of_wf (st : AutoSt) (h : AutoWf st) :
    clearOld st = ⟨none, [], st.nextPid⟩ := by
  obtain ⟨rec, alive, np⟩ := st
  obtain ⟨hnd, hrec, _⟩ := h
  cases rec with
  | none =>
    have ha : alive = [] := by
      cases alive with
      | nil => rfl
      | cons p t =>
        obtain ⟨s, hs, _⟩ := hrec p (List.mem_cons_self p t)
        cases hs
    subst ha
    rfl
  | some s =>
    cases hp : pidParse s with
    | none =>
      have ha : alive = [] := by
        cases alive with
        | nil => rfl
        | cons p t =>
          obtain ⟨s₀, hs₀, hps₀⟩ := hrec p (List.mem_cons_self p t)
          injection hs₀ with he
          subst he
          rw [hp] at hps₀
          cases hps₀
      subst ha
      simp [clearOld, hp]
    | some pid =>
      have hall : ∀ q ∈ alive, q = pid := by
        intro q hq
        obtain ⟨s₀, hs₀, hps₀⟩ := hrec q hq
        injection hs₀ with he
        subst he
        rw [hp] at hps₀
        injection hps₀ with he₀
        exact he₀.symm
      cases halive : alive with
      | nil =>
        subst halive
        simp [clearOld, hp]
      | cons p t =>
        have hp' : p = pid := hall p (by rw [halive]; exact List.mem_cons_self p t)
        subst hp'
        have ht : t = [] := by
          cases t with
          | nil => rfl
          | cons r u =>
            have hr : r = p := hall r (by rw [halive]; simp)
            exfalso
            rw [halive, hr] at hnd
            simp at hnd
        subst ht
        subst halive
        simp [clearOld, hp, List.erase_cons_head]

/-- Under well-formedness a start replaces everything by the freshly spawned
loop: its pid is the only live one and the record holds its numeral. -/
theorem start_of_wf (st : AutoSt) (i : Int) (h : AutoWf st) (hi : 0 < i) :
    manage_automation i st =
      ⟨some (natPrint st.nextPid), [st.nextPid], st.nextPid + 1⟩ := by
  unfold manage_automation
  rw [clearOld_of_wf st h, if_pos hi]

/-- The state a start leaves behind is well-formed. -/
theorem wf_after_start (p : Nat) : AutoWf ⟨some (natPrint p), [p], p + 1⟩ := by
  refine ⟨List.nodup_singleton p, ?_, ?_⟩
  · intro q hq
    rw [List.mem_singleton] at hq
    subst hq
    exact ⟨natPrint q, rfl, pidParse_natPrint q⟩
  · intro q hq
    rw [List.mem_singleton] at hq
    subst hq
    exact Nat.lt_succ_self q

/-- C2: starting from any well-formed automation state, each start first
terminates the live loop named by the record and clears it before spawning;
hence after two sequential starts exactly one background loop is alive and
the persisted record holds its process identifier. -/
theorem C2_supersession_single_loop (st : AutoSt) (i₁ i₂ : Int)
    (hwf : AutoWf st) (h₁ : 0 < i₁) (h₂ : 0 < i₂) :
    ∃ p, (manage_automation i₂ (manage_automation i₁ st)).alive = [p] ∧
      (manage_automation i₂ (manage_automation i₁ st)).record
        = some (natPrint p) := by
  rw [start_of_wf st i₁ hwf h₁,
    start_of_wf _ i₂ (wf_after_start st.nextPid) h₂]
  exact ⟨st.nextPid + 1, rfl, rfl⟩

/-- Witness for C2 from the idle state. -/
theorem C2_supersession_single_loop_witness :
    AutoWf idleAuto ∧
    ∃ p, (manage_automation 1 (manage_automation 1 idleAuto)).alive = [p] ∧
      (manage_automation 1 (manage_automation 1 idleAuto)).record
        = some (natPrint p) :=
  ⟨⟨List.nodup_nil, fun p hp => absurd hp (List.not_mem_nil p),
     fun p hp => absurd hp (List.not_mem_nil p)⟩,
   C2_supersession_single_loop idleAuto 1 1
     ⟨List.nodup_nil, fun p hp => absurd hp (List.not_mem_nil p),
      fun p hp => absurd hp (List.not_mem_nil p)⟩
     (by norm_num) (by norm_num)⟩

/-- C8: when the record exists but holds text that is not a valid integer or
names a process that is not alive, manage_automation (both start and stop)
behaves exactly as from the state with the record already cleared — the stale
record is silently reconciled, no error is raised — and a stop leaves the
state with the record removed and the live processes untouched. -/
theorem C8_stale_record_reconciled (i : Int) (st : AutoSt) (s : String)
    (hrec : st.record = some s)
    (hstale : pidParse s = none ∨ ∀ p, pidParse s = some p → p ∉ st.alive) :
    manage_automation i st = manage_automation i { st with record := none } ∧
    (¬ 0 < i → manage_automation i st = { st with record := none }) := by
  have hclear : clearOld st = { st with record := none } := by
    rcases hstale with hnone | hdead
    · simp [clearOld, hrec, hnone]
    · cases hp : pidParse s with
      | none => simp [clearOld, hrec, hp]
      | some p => simp [clearOld, hrec, hp, hdead p hp]
  have hclear₂ : clearOld { st with record := none } =
      { st with record := none } := rfl
  constructor
  · simp only [manage_automation]
    rw [hclear, hclear₂]
  · intro hile
    simp only [manage_automation]
    rw [hclear, if_neg hile]

/-- Witness for C8 at a concrete unparseable record and a stop request. -/
theorem C8_stale_record_reconciled_witness :
    pidParse "stale" = none ∧
    manage_automation 0 staleAuto = { staleAuto with record := none } :=
  ⟨rfl,
   (C8_stale_record_reconciled 0 staleAuto "stale" rfl (Or.inl rfl)).2
     (by norm_num)⟩

end Wallpaper
